import Mathlib

/-!
Shallow embedding of the gunz prototype (src/main.cpp): the player entity
with its dash impulse, the per-frame physics resolver `apply_gravity`, and
the double-press detector `KeyDoublePress::is_double_press`.

Coordinates and sizes are modelled as integers (the program only ever holds
integral values in the float fields of raylib's `Rectangle`, and all claims
are about exact arithmetic). Velocities `delta_x`/`delta_y` are C `int`,
modelled as `Int`. Time is modelled in milliseconds as `Int`; the clock
reads inside one call to `is_double_press` are modelled as a single instant
`now`, passed explicitly.
-/

namespace Gunz

/-- Model of raylib's `Rectangle`: axis-aligned, `{x, y, width, height}`. -/
structure Rectangle where
  x : Int
  y : Int
  width : Int
  height : Int
deriving DecidableEq, Repr

/-- Model of `struct Player : Rectangle` (main.cpp line 16): the rectangle
fields flattened together with the integer velocity components. -/
structure Player where
  x : Int
  y : Int
  width : Int
  height : Int
  delta_x : Int
  delta_y : Int
deriving DecidableEq, Repr

/-- raylib key code for W (up). -/
def KEY_W : Nat := 87
/-- raylib key code for A (left). -/
def KEY_A : Nat := 65
/-- raylib key code for S (down). -/
def KEY_S : Nat := 83
/-- raylib key code for D (right). -/
def KEY_D : Nat := 68

/-- PLAYER_MOVE_SPEED constant (main.cpp line 12). -/
def PLAYER_MOVE_SPEED : Int := 5
/-- PLAYER_DASH_SPEED constant (main.cpp line 13). -/
def PLAYER_DASH_SPEED : Int := 50
/-- JUMP_DELTA constant (main.cpp line 14). -/
def JUMP_DELTA : Int := -20

/-- Model of `Player::jump` (main.cpp line 20). -/
def Player.jump (p : Player) : Player :=
  { p with delta_y := JUMP_DELTA }

/-- Model of `Player::dash` (main.cpp lines 21-34): a switch on the key code;
KEY_A decrements `delta_x` by PLAYER_DASH_SPEED, KEY_D increments it, every
other key (KEY_S, KEY_W, and the default case, which includes 0) does
nothing. -/
def Player.dash (p : Player) (key : Nat) : Player :=
  if key = KEY_A then { p with delta_x := p.delta_x - PLAYER_DASH_SPEED }
  else if key = KEY_D then { p with delta_x := p.delta_x + PLAYER_DASH_SPEED }
  else p

/-- Model of raylib's `CheckCollisionRecs` (rshapes.c): true exactly when the
two rectangles strictly overlap on both axes. -/
def CheckCollisionRecs (r1 r2 : Rectangle) : Bool :=
  r1.x < r2.x + r2.width && r1.x + r1.width > r2.x &&
  r1.y < r2.y + r2.height && r1.y + r1.height > r2.y

/-- Model of raylib's `GetCollisionRec` (rshapes.c): the intersection
rectangle of the two arguments, or the all-zero rectangle when the
intersection is empty or degenerate. -/
def GetCollisionRec (r1 r2 : Rectangle) : Rectangle :=
  let left := max r1.x r2.x
  let right := min (r1.x + r1.width) (r2.x + r2.width)
  let top := max r1.y r2.y
  let bottom := min (r1.y + r1.height) (r2.y + r2.height)
  if left < right ∧ top < bottom then
    { x := left, y := top, width := right - left, height := bottom - top }
  else
    { x := 0, y := 0, width := 0, height := 0 }

/-- Gravity integration sub-step of `apply_gravity` (main.cpp lines 39-42):
`delta_y += 1`, then clamp to at most 10. -/
def gravityStep (d : Int) : Int :=
  let d1 := d + 1
  if d1 ≥ 10 then 10 else d1

/-- The swept bounding rectangle `next_rect` (main.cpp lines 47-51), built
from the player's current position and the tentative next position. -/
def next_rect (p : Player) (nx ny : Int) : Rectangle :=
  { x := min nx p.x
    y := min ny p.y
    width := |p.x - nx| + p.width
    height := |p.y - ny| + p.height }

/-- The floor probe rectangle `one_below` (main.cpp lines 53-58): at the
tentative `next_x`, one unit above the tentative bottom edge, spanning the
player's width, with height 2. -/
def one_below (p : Player) (nx ny : Int) : Rectangle :=
  { x := nx
    y := ny + p.height - 1
    width := p.width
    height := 2 }

/-- One iteration of the wall loop of `apply_gravity` (main.cpp lines
66-106), acting on the accumulated `(next_x, next_y)` pair. The overlap and
started/ended tests read only the player's original position and the fixed
swept rectangle `rect`; the accumulator is consulted only as the fallback
value of each axis. -/
def wallStep (p : Player) (rect : Rectangle) (acc : Int × Int)
    (wall : Rectangle) : Int × Int :=
  let collision := GetCollisionRec rect wall
  if collision.width ≠ 0 ∨ collision.height ≠ 0 then
    let ny1 := if p.y + p.height ≤ wall.y ∧ ¬(rect.y + rect.height ≤ wall.y)
      then wall.y - p.height else acc.2
    let ny2 := if wall.y + wall.height ≤ p.y ∧ ¬(wall.y + wall.height ≤ rect.y)
      then wall.y + wall.height else ny1
    let nx1 := if p.x + p.width ≤ wall.x ∧ ¬(rect.x + rect.width ≤ wall.x)
      then wall.x - p.width else acc.1
    let nx2 := if wall.x + wall.width ≤ p.x ∧ ¬(wall.x + wall.width ≤ rect.x)
      then wall.x + wall.width else nx1
    (nx2, ny2)
  else acc

/-- Model of `apply_gravity` (main.cpp lines 37-111): integrate gravity,
compute the tentative next position, snap to the floor when the probe
overlaps it (zeroing a positive `delta_y`), run the wall loop over the fixed
swept rectangle, and commit, zeroing `delta_x`. -/
def apply_gravity (p : Player) (floor : Rectangle)
    (walls : List Rectangle) : Player :=
  let d := gravityStep p.delta_y
  let ny0 := p.y + d
  let nx0 := p.x + p.delta_x
  let rect := next_rect p nx0 ny0
  let floorHit := CheckCollisionRecs (one_below p nx0 ny0) floor
  let ny1 := if floorHit then floor.y - p.height else ny0
  let d1 := if floorHit ∧ 0 < d then 0 else d
  let r := walls.foldl (wallStep p rect) (nx0, ny1)
  { x := r.1, y := r.2, width := p.width, height := p.height,
    delta_x := 0, delta_y := d1 }

/-- Model of `struct KeyDoublePress` state (main.cpp lines 113-115): the
timestamp of the last observed fresh press and the key that was pressed. -/
structure KeyDoublePress where
  last_pressed : Int
  key : Nat
deriving DecidableEq, Repr

/-- The fixed scan order of `is_double_press` (main.cpp line 164):
`keys[4] = {KEY_W, KEY_A, KEY_S, KEY_D}`. -/
def scanKeys : List Nat := [KEY_W, KEY_A, KEY_S, KEY_D]

/-- One iteration of the scan loop in `KeyDoublePress::is_double_press`
(main.cpp lines 118-128): if the key is freshly pressed, record it as the
double-press result when it equals the stored key and the stored timestamp
is less than 300ms old, then unconditionally overwrite the stored key and
timestamp. -/
def pressStep (now : Int) (pressed : Nat → Bool)
    (acc : Nat × KeyDoublePress) (k : Nat) : Nat × KeyDoublePress :=
  if pressed k then
    let d := if acc.2.key = k ∧ now < acc.2.last_pressed + 300 then k
      else acc.1
    (d, ⟨now, k⟩)
  else acc

/-- Model of `KeyDoublePress::is_double_press` (main.cpp lines 116-131):
scan the four movement keys in order, returning the double-press result for
the frame (0 when none) together with the updated detector state. `pressed`
models raylib's `IsKeyPressed` for this frame, `now` the system clock. -/
def is_double_press (s : KeyDoublePress) (pressed : Nat → Bool)
    (now : Int) : Nat × KeyDoublePress :=
  scanKeys.foldl (pressStep now pressed) (0, s)

/-! Concrete fixtures used by witnesses and concrete scenarios. -/

/-- A player moving right and falling: tentative position (30, 6). -/
def samplePlayer : Player :=
  { x := 0, y := 0, width := 20, height := 20, delta_x := 30, delta_y := 5 }

/-- A floor far out of reach of `samplePlayer`. -/
def sampleFloor : Rectangle := { x := 0, y := 1000, width := 10, height := 10 }

/-- A wall that `samplePlayer` hits from above (vertical snap only). -/
def wallA : Rectangle := { x := 0, y := 22, width := 10, height := 10 }

/-- A wall that `samplePlayer` hits from the left (horizontal snap only). -/
def wallB : Rectangle := { x := 25, y := 0, width := 5, height := 10 }

/-- A second from-above wall, snapping `next_y` to a different value than
`wallA`. -/
def wallA2 : Rectangle := { x := 0, y := 24, width := 10, height := 10 }

/-- A falling player whose floor probe overlaps `floorRect`. -/
def floorPlayer : Player :=
  { x := 0, y := 560, width := 20, height := 20, delta_x := 0, delta_y := 5 }

/-- A rising player (negative `delta_y`) whose floor probe overlaps
`floorRect`. -/
def risingPlayer : Player :=
  { x := 0, y := 585, width := 20, height := 20, delta_x := 0, delta_y := -8 }

/-- The floor of the game (main.cpp lines 145-150). -/
def floorRect : Rectangle := { x := -100, y := 580, width := 1000, height := 20 }

/-! Helper definitions and lemmas about the wall loop. -/

/-- The horizontal snap a single wall contributes: `some v` when its tests
against the player's start position and the fixed swept rectangle fire
(`v` being the snapped `next_x`), `none` when the wall leaves `next_x`
alone. The right-side test overwrites the left-side one. -/
def wallSnapX (p : Player) (rect wall : Rectangle) : Option Int :=
  if (GetCollisionRec rect wall).width ≠ 0 ∨
      (GetCollisionRec rect wall).height ≠ 0 then
    if wall.x + wall.width ≤ p.x ∧ ¬(wall.x + wall.width ≤ rect.x) then
      some (wall.x + wall.width)
    else if p.x + p.width ≤ wall.x ∧ ¬(rect.x + rect.width ≤ wall.x) then
      some (wall.x - p.width)
    else none
  else none

/-- The vertical snap a single wall contributes; the from-below test
overwrites the from-above one. -/
def wallSnapY (p : Player) (rect wall : Rectangle) : Option Int :=
  if (GetCollisionRec rect wall).width ≠ 0 ∨
      (GetCollisionRec rect wall).height ≠ 0 then
    if wall.y + wall.height ≤ p.y ∧ ¬(wall.y + wall.height ≤ rect.y) then
      some (wall.y + wall.height)
    else if p.y + p.height ≤ wall.y ∧ ¬(rect.y + rect.height ≤ wall.y) then
      some (wall.y - p.height)
    else none
  else none

/-- One wall-loop iteration either overwrites an axis with a value computed
purely from the player, the swept rectangle and the wall, or leaves the
accumulator's value for that axis. -/
theorem wallStep_eq (p : Player) (rect : Rectangle) (acc : Int × Int)
    (wall : Rectangle) :
    wallStep p rect acc wall =
      ((wallSnapX p rect wall).getD acc.1,
       (wallSnapY p rect wall).getD acc.2) := by
  simp only [wallStep, wallSnapX, wallSnapY]
  split_ifs <;> simp_all

/-- The last `some` entry of a list of optional values, if any. -/
def lastSome : List (Option Int) → Option Int
  | [] => none
  | o :: l =>
    match lastSome l with
    | some v => some v
    | none => o

theorem getD_lastSome_cons (o : Option Int) (l : List (Option Int))
    (x : Int) :
    (lastSome (o :: l)).getD x = (lastSome l).getD (o.getD x) := by
  cases h : lastSome l <;> simp [lastSome, h]

/-- The wall loop, unrolled: on each axis the final value is the last snap
any wall contributes, or the loop's starting value when no wall snaps that
axis. -/
theorem foldl_wallStep (p : Player) (rect : Rectangle) :
    ∀ (ws : List Rectangle) (x0 y0 : Int),
      ws.foldl (wallStep p rect) (x0, y0) =
        ((lastSome (ws.map (wallSnapX p rect))).getD x0,
         (lastSome (ws.map (wallSnapY p rect))).getD y0)
  | [], x0, y0 => by simp [lastSome]
  | w :: ws, x0, y0 => by
    simp only [List.foldl_cons, List.map_cons]
    rw [wallStep_eq, foldl_wallStep p rect ws,
      getD_lastSome_cons, getD_lastSome_cons]

/-! Claim theorems. -/

/-- C4: one gravity step adds 1 to `delta_y` and clamps above: for a
starting `delta_y ≤ 9` the result is `delta_y + 1`, for a starting
`delta_y ≥ 9` the result is 10 (both branches agree at 9), and after every
call to `apply_gravity` the committed `delta_y` is at most 10. -/
theorem C4_gravity_clamp :
    (∀ d : Int, d ≤ 9 → gravityStep d = d + 1) ∧
    (∀ d : Int, 9 ≤ d → gravityStep d = 10) ∧
    (∀ (p : Player) (f : Rectangle) (ws : List Rectangle),
      (apply_gravity p f ws).delta_y ≤ 10) := by
  refine ⟨?_, ?_, ?_⟩
  · intro d h
    simp only [gravityStep]
    split_ifs <;> omega
  · intro d h
    simp only [gravityStep]
    split_ifs <;> omega
  · intro p f ws
    simp only [apply_gravity, gravityStep]
    split_ifs <;> omega

/-- Witness for C4 at concrete inputs. -/
theorem C4_witness :
    gravityStep 3 = 4 ∧ gravityStep 11 = 10 ∧
    (apply_gravity samplePlayer sampleFloor []).delta_y ≤ 10 :=
  ⟨C4_gravity_clamp.1 3 (by decide), C4_gravity_clamp.2.1 11 (by decide),
   C4_gravity_clamp.2.2 samplePlayer sampleFloor []⟩

/-- C5, counterexample: the floor probe rectangle is not one unit tall; at
a concrete player and tentative position its height is 2. -/
theorem C5_counterexample : (one_below samplePlayer 3 4).height ≠ 1 := by
  decide

/-- C5, amended: the floor probe rectangle built in `apply_gravity` is
exactly two units tall, positioned at `x = next_x` and
`y = next_y + player.height - 1`, with width equal to the player's width. -/
theorem C5_probe_shape (p : Player) (nx ny : Int) :
    one_below p nx ny =
      { x := nx, y := ny + p.height - 1, width := p.width, height := 2 } :=
  rfl

/-- C7: immediately after `apply_gravity`, `delta_x` is 0 regardless of
its value on entry, while `delta_y` is not reset: it keeps its
post-gravity value except that the floor clamp zeroes it exactly when the
floor probe overlaps the floor and the post-gravity `delta_y` is
positive. -/
theorem C7_impulse_reset (p : Player) (f : Rectangle)
    (ws : List Rectangle) :
    (apply_gravity p f ws).delta_x = 0 ∧
    (apply_gravity p f ws).delta_y =
      (if CheckCollisionRecs
            (one_below p (p.x + p.delta_x) (p.y + gravityStep p.delta_y))
            f ∧ 0 < gravityStep p.delta_y
        then 0 else gravityStep p.delta_y) := by
  constructor
  · rfl
  · rfl

/-- C8: `Player.dash` subtracts the dash magnitude 50 from `delta_x` on the
move-left key, adds 50 on the move-right key, and is a no-op on every other
key value (including up, down and 0); it never changes `delta_y`, `x` or
`y`, so it is additive with movement already accumulated in `delta_x`. -/
theorem C8_dash (p : Player) (k : Nat) :
    (p.dash KEY_A).delta_x = p.delta_x - 50 ∧
    (p.dash KEY_D).delta_x = p.delta_x + 50 ∧
    (k ≠ KEY_A → k ≠ KEY_D → p.dash k = p) ∧
    (p.dash k).delta_y = p.delta_y ∧
    (p.dash k).x = p.x ∧ (p.dash k).y = p.y ∧
    p.dash KEY_W = p ∧ p.dash KEY_S = p ∧ p.dash 0 = p := by
  refine ⟨?_, ?_, ?_, ?_, ?_, ?_, ?_, ?_, ?_⟩ <;>
    simp only [Player.dash, PLAYER_DASH_SPEED, KEY_A, KEY_D, KEY_W, KEY_S]
  · rfl
  · rfl
  · intro h1 h2
    rw [if_neg h1, if_neg h2]
  · split_ifs <;> rfl
  · split_ifs <;> rfl
  · split_ifs <;> rfl
  · rfl
  · rfl
  · rfl

/-- Witness for C8 at concrete inputs. -/
theorem C8_witness :
    Player.dash samplePlayer KEY_S = samplePlayer ∧
    (Player.dash samplePlayer KEY_A).delta_x = samplePlayer.delta_x - 50 :=
  ⟨(C8_dash samplePlayer KEY_S).2.2.1 (by decide) (by decide),
   (C8_dash samplePlayer KEY_S).1⟩

/-- C9: `apply_gravity` changes only position and velocity; the player's
width and height are unchanged by every call (and, the embedding being a
pure function of the borrowed floor and walls, neither of those is
modified). -/
theorem C9_size_preserved (p : Player) (f : Rectangle)
    (ws : List Rectangle) :
    (apply_gravity p f ws).width = p.width ∧
    (apply_gravity p f ws).height = p.height :=
  ⟨rfl, rfl⟩

/-- C10: `apply_gravity` is deterministic: identical player, floor and wall
inputs produce identical resulting player states. -/
theorem C10_deterministic (p₁ p₂ : Player) (f₁ f₂ : Rectangle)
    (w₁ w₂ : List Rectangle) (hp : p₁ = p₂) (hf : f₁ = f₂)
    (hw : w₁ = w₂) :
    apply_gravity p₁ f₁ w₁ = apply_gravity p₂ f₂ w₂ := by
  subst hp
  subst hf
  subst hw
  rfl

/-- Witness for C10 at concrete inputs. -/
theorem C10_witness :
    apply_gravity samplePlayer sampleFloor [wallA] =
      apply_gravity samplePlayer sampleFloor [wallA] :=
  C10_deterministic samplePlayer samplePlayer sampleFloor sampleFloor
    [wallA] [wallA] rfl rfl rfl

/-- C1: whenever the floor probe (at the tentative `next_x`, at the
player's tentative bottom edge) overlaps the floor, `next_y` is snapped to
`floor.y - player.height` regardless of the sign of `delta_y`, and the
post-gravity `delta_y` is zeroed exactly when it is positive, a rising
player keeping its `delta_y` unchanged; with an empty wall list the
committed `player.y` equals `floor.y - player.height`. -/
theorem C1_floor_snap (p : Player) (f : Rectangle)
    (h : CheckCollisionRecs
        (one_below p (p.x + p.delta_x) (p.y + gravityStep p.delta_y))
        f = true) :
    (apply_gravity p f []).y = f.y - p.height ∧
    (apply_gravity p f []).delta_y =
      (if 0 < gravityStep p.delta_y then 0 else gravityStep p.delta_y) ∧
    (gravityStep p.delta_y < 0 →
      (apply_gravity p f []).delta_y = gravityStep p.delta_y) := by
  refine ⟨?_, ?_, ?_⟩
  · simp [apply_gravity, h]
  · simp [apply_gravity, h]
  · intro hrise
    simp [apply_gravity, h]
    omega

/-- Witness for C1: a falling player resting on the floor, and a rising
player that keeps its negative `delta_y` while being snapped. -/
theorem C1_witness :
    CheckCollisionRecs
      (one_below floorPlayer (floorPlayer.x + floorPlayer.delta_x)
        (floorPlayer.y + gravityStep floorPlayer.delta_y))
      floorRect = true ∧
    (apply_gravity floorPlayer floorRect []).y =
      floorRect.y - floorPlayer.height ∧
    gravityStep risingPlayer.delta_y < 0 ∧
    (apply_gravity risingPlayer floorRect []).y =
      floorRect.y - risingPlayer.height ∧
    (apply_gravity risingPlayer floorRect []).delta_y =
      gravityStep risingPlayer.delta_y :=
  ⟨by decide, (C1_floor_snap floorPlayer floorRect (by decide)).1,
   by decide, (C1_floor_snap risingPlayer floorRect (by decide)).1,
   (C1_floor_snap risingPlayer floorRect (by decide)).2.2 (by decide)⟩

/-- C3: for every wall whose intersection with the swept rectangle is
non-degenerate, the vertical resolution snaps `next_y` to
`wall.y - player.height` when the player started at or above the wall's top
and the swept rectangle does not end at or above it, and to
`wall.y + wall.height` when the player started at or below the wall's
bottom and the swept rectangle does not end below it; both checks run in
that order, so when both fire the from-below snap overwrites the
from-above one; the horizontal resolution is symmetric on left/right
edges. -/
theorem C3_wall_resolution (p : Player) (rect wall : Rectangle)
    (acc : Int × Int)
    (h : (GetCollisionRec rect wall).width ≠ 0 ∨
      (GetCollisionRec rect wall).height ≠ 0) :
    (wallStep p rect acc wall).2 =
      (if wall.y + wall.height ≤ p.y ∧ ¬(wall.y + wall.height ≤ rect.y)
        then wall.y + wall.height
        else if p.y + p.height ≤ wall.y ∧ ¬(rect.y + rect.height ≤ wall.y)
          then wall.y - p.height
          else acc.2) ∧
    (wallStep p rect acc wall).1 =
      (if wall.x + wall.width ≤ p.x ∧ ¬(wall.x + wall.width ≤ rect.x)
        then wall.x + wall.width
        else if p.x + p.width ≤ wall.x ∧ ¬(rect.x + rect.width ≤ wall.x)
          then wall.x - p.width
          else acc.1) ∧
    ((p.y + p.height ≤ wall.y ∧ ¬(rect.y + rect.height ≤ wall.y)) ∧
      (wall.y + wall.height ≤ p.y ∧ ¬(wall.y + wall.height ≤ rect.y)) →
      (wallStep p rect acc wall).2 = wall.y + wall.height) := by
  rw [wallStep_eq, wallSnapX, wallSnapY]
  rw [if_pos h, if_pos h]
  refine ⟨?_, ?_, ?_⟩
  · split_ifs <;> rfl
  · split_ifs <;> rfl
  · intro hboth
    rw [if_pos hboth.2]
    rfl

/-- Witness for C3: `samplePlayer` against `wallA`, whose intersection with
the swept rectangle is non-degenerate; the from-above snap fires. -/
theorem C3_witness :
    ((GetCollisionRec (next_rect samplePlayer 30 6) wallA).width ≠ 0 ∨
      (GetCollisionRec (next_rect samplePlayer 30 6) wallA).height ≠ 0) ∧
    (wallStep samplePlayer (next_rect samplePlayer 30 6) (30, 6)
      wallA).2 = 2 :=
  ⟨Or.inl (by decide), by
    rw [(C3_wall_resolution samplePlayer (next_rect samplePlayer 30 6)
      wallA (30, 6) (Or.inl (by decide))).1]
    decide⟩

/-- C2: every wall-loop iteration tests against the same swept rectangle,
never updated by earlier snaps: unrolled, the loop yields on each axis the
last snap contributed by any wall (so the last wall whose test fires on an
axis determines that axis's final value), the two axes resolving
independently. Concretely, `wallA` contributes only a vertical snap and
`wallB` only a horizontal one, and both take effect in the same
`apply_gravity` frame; with two vertically snapping walls the later one
wins. -/
theorem C2_wall_loop_independent :
    (∀ (p : Player) (rect : Rectangle) (ws : List Rectangle) (x0 y0 : Int),
      ws.foldl (wallStep p rect) (x0, y0) =
        ((lastSome (ws.map (wallSnapX p rect))).getD x0,
         (lastSome (ws.map (wallSnapY p rect))).getD y0)) ∧
    wallSnapY samplePlayer (next_rect samplePlayer 30 6) wallA = some 2 ∧
    wallSnapX samplePlayer (next_rect samplePlayer 30 6) wallA = none ∧
    wallSnapX samplePlayer (next_rect samplePlayer 30 6) wallB = some 5 ∧
    wallSnapY samplePlayer (next_rect samplePlayer 30 6) wallB = none ∧
    (apply_gravity samplePlayer sampleFloor [wallA, wallB]).x = 5 ∧
    (apply_gravity samplePlayer sampleFloor [wallA, wallB]).y = 2 ∧
    wallSnapY samplePlayer (next_rect samplePlayer 30 6) wallA2 = some 4 ∧
    (apply_gravity samplePlayer sampleFloor [wallA, wallA2]).y = 4 := by
  refine ⟨foldl_wallStep, ?_, ?_, ?_, ?_, ?_, ?_, ?_, ?_⟩ <;> decide

/-- C6: `is_double_press` returns a nonzero key exactly when a scanned key
is freshly pressed, equals the stored key at the moment of its check, and
falls strictly within the 300ms window (in closed form: the first pressed
key in the fixed scan order W, A, S, D must itself be the stored key, an
earlier fresh press having overwritten the stored key before a later
match could be tested, so at most one match can fire and the detector
returns the last recorded match); every fresh press unconditionally
overwrites the stored key and timestamp, including the press that produced
the match. Concretely: two presses of the same key 250ms apart yield one
dash event, presses 350ms apart yield none, and presses of two different
keys yield none. -/
theorem C6_double_press :
    (∀ (s : KeyDoublePress) (pressed : Nat → Bool) (now : Int),
      (is_double_press s pressed now).1 =
        (if pressed KEY_W then
           if s.key = KEY_W ∧ now < s.last_pressed + 300 then KEY_W else 0
         else if pressed KEY_A then
           if s.key = KEY_A ∧ now < s.last_pressed + 300 then KEY_A else 0
         else if pressed KEY_S then
           if s.key = KEY_S ∧ now < s.last_pressed + 300 then KEY_S else 0
         else if pressed KEY_D then
           if s.key = KEY_D ∧ now < s.last_pressed + 300 then KEY_D else 0
         else 0) ∧
      (is_double_press s pressed now).2 =
        (match (scanKeys.filter fun k => pressed k).getLast? with
         | some k => (⟨now, k⟩ : KeyDoublePress)
         | none => s)) ∧
    (is_double_press ⟨0, 0⟩ (fun k => k == KEY_A) 0).1 = 0 ∧
    (is_double_press (is_double_press ⟨0, 0⟩ (fun k => k == KEY_A) 0).2
      (fun k => k == KEY_A) 250).1 = KEY_A ∧
    (is_double_press (is_double_press ⟨0, 0⟩ (fun k => k == KEY_A) 0).2
      (fun k => k == KEY_A) 350).1 = 0 ∧
    (is_double_press (is_double_press ⟨0, 0⟩ (fun k => k == KEY_A) 0).2
      (fun k => k == KEY_D) 250).1 = 0 ∧
    (is_double_press (is_double_press ⟨0, 0⟩ (fun k => k == KEY_A) 0).2
      (fun k => k == KEY_D) 1).1 = 0 := by
  refine ⟨?_, by decide, by decide, by decide, by decide, by decide⟩
  intro s pressed now
  cases hW : pressed 87 <;> cases hA : pressed 65 <;>
    cases hS : pressed 83 <;> cases hD : pressed 68 <;>
    simp [is_double_press, scanKeys, pressStep, KEY_W, KEY_A, KEY_S, KEY_D,
      hW, hA, hS, hD, List.filter]

end Gunz
